import Mathlib

/-!
Verification development for the RankFM modeling class
(src/rankfm/rankfm.py): a factorization-machine ranking model with
implicit-feedback training.

The Python class is embedded shallowly:
* pandas/numpy tables become Lean lists and a small matrix structure;
* the mutable `self` object becomes an explicit `Model` state record,
  each method a function from states to (result, state);
* Python exceptions become `Except String`/`Option String` results;
* machine floats become `ℚ` (no claim here depends on rounding);
* the just-in-time compiled core (`rankfm.numba_methods._fit`,
  `_predict`, `_recommend_for_users`) is not part of the repository
  sources, so those three functions are modelled from the spec where a
  claim needs them (their doc comments say so explicitly);
* `np.random.normal` draws are passed in as explicit matrix arguments.
-/

set_option maxHeartbeats 1000000

namespace RankFM

/-- Python runtime values as far as the hyperparameter validation in
`RankFM.__init__` observes them: ints, bools (which are `int` instances
in Python), floats, strings, and everything else. -/
inductive PyVal where
  | vint : Int → PyVal
  | vbool : Bool → PyVal
  | vfloat : ℚ → PyVal
  | vstr : String → PyVal
  | vother : PyVal
deriving DecidableEq

/-- Python `isinstance(x, int)`; `bool` is a subclass of `int`. -/
def PyVal.isInt : PyVal → Bool
  | vint _ => true
  | vbool _ => true
  | _ => false

/-- Python `isinstance(x, float)` (ints and bools are not floats). -/
def PyVal.isFloat : PyVal → Bool
  | vfloat _ => true
  | _ => false

/-- Python `isinstance(x, str)`. -/
def PyVal.isStr : PyVal → Bool
  | vstr _ => true
  | _ => false

/-- The integer carried by an int-like Python value (True = 1, False = 0). -/
def PyVal.intVal : PyVal → Int
  | vint n => n
  | vbool b => if b then 1 else 0
  | _ => 0

/-- The rational carried by a Python float value. -/
def PyVal.floatVal : PyVal → ℚ
  | vfloat q => q
  | _ => 0

/-- The string carried by a Python str value. -/
def PyVal.strVal : PyVal → String
  | vstr s => s
  | _ => ""

/-- The hyperparameters stored by `RankFM.__init__` once validation passes. -/
structure Hyper where
  factors : Int
  regularization : ℚ
  sigma : ℚ
  learning_rate : ℚ
  learning_schedule : String
  learning_exponent : ℚ
deriving DecidableEq

/-- The six `assert` conditions of `RankFM.__init__`, in source order:
factors a positive integer, regularization a non-negative float, sigma a
positive float, learning_rate a positive float, learning_schedule the
string "constant" or "invscaling", learning_exponent a positive float. -/
def validHyper (factors regularization sigma learning_rate
    learning_schedule learning_exponent : PyVal) : Prop :=
  (factors.isInt = true ∧ 1 ≤ factors.intVal) ∧
  (regularization.isFloat = true ∧ 0 ≤ regularization.floatVal) ∧
  (sigma.isFloat = true ∧ 0 < sigma.floatVal) ∧
  (learning_rate.isFloat = true ∧ 0 < learning_rate.floatVal) ∧
  (learning_schedule.isStr = true ∧
    (learning_schedule.strVal = "constant" ∨ learning_schedule.strVal = "invscaling")) ∧
  (learning_exponent.isFloat = true ∧ 0 < learning_exponent.floatVal)

instance (a b c d e f : PyVal) : Decidable (validHyper a b c d e f) := by
  unfold validHyper; infer_instance

/-- `RankFM.__init__`: runs the six `assert` statements in order; the first
failed assertion raises, and only when all pass are the hyperparameters
stored. -/
def rankfm_init (factors regularization sigma learning_rate
    learning_schedule learning_exponent : PyVal) : Except String Hyper :=
  if ¬ (factors.isInt = true ∧ 1 ≤ factors.intVal) then
    .error "factors must be a positive integer"
  else if ¬ (regularization.isFloat = true ∧ 0 ≤ regularization.floatVal) then
    .error "regularization must be a non-negative float"
  else if ¬ (sigma.isFloat = true ∧ 0 < sigma.floatVal) then
    .error "sigma must be a positive float"
  else if ¬ (learning_rate.isFloat = true ∧ 0 < learning_rate.floatVal) then
    .error "learning_rate must be a positive float"
  else if ¬ (learning_schedule.isStr = true ∧
      (learning_schedule.strVal = "constant" ∨ learning_schedule.strVal = "invscaling")) then
    .error "learning_schedule must be in constant or invscaling"
  else if ¬ (learning_exponent.isFloat = true ∧ 0 < learning_exponent.floatVal) then
    .error "learning_exponent must be a positive float"
  else
    .ok ⟨factors.intVal, regularization.floatVal, sigma.floatVal,
      learning_rate.floatVal, learning_schedule.strVal, learning_exponent.floatVal⟩

/-- A dense real matrix: a row list plus an explicit column count (numpy
arrays keep their column count even with zero rows). -/
structure Mat where
  ncols : Nat
  rows : List (List ℚ)
deriving DecidableEq

/-- `np.zeros([nrows, ncols])`. -/
def zerosMat (nrows ncols : Nat) : Mat :=
  ⟨ncols, List.replicate nrows (List.replicate ncols 0)⟩

/-- `np.zeros(n)`. -/
def zerosVec (n : Nat) : List ℚ := List.replicate n 0

/-- A raw feature table as passed to `fit`: each row is a raw identifier
(its first column) followed by `ncols` feature values. -/
structure Feats where
  ncols : Nat
  rows : List (Nat × List ℚ)
deriving DecidableEq

/-- Zero-based position of `x` in `ids`: the `user_to_index` /
`item_to_index` pandas Series lookup (`none` models the NaN produced by a
failed `.map`). -/
def lookupIdx : List Nat → Nat → Option Nat
  | [], _ => none
  | a :: rest, x => if a = x then some 0 else (lookupIdx rest x).map (· + 1)

/-- `np.sort(np.unique(l))`: the distinct values in ascending order. -/
def uniqSorted (l : List Nat) : List Nat :=
  List.insertionSort (· ≤ ·) l.dedup

/-- The whole mutable state of a `RankFM` object; fields that
`_reset_state` sets to Python `None` are `Option`s. `user_id`/`item_id`
double as `index_to_user`/`index_to_item` (the source stores the same
Series under both names), and lookups through them model
`user_to_index`/`item_to_index`. -/
structure Model where
  hyper : Hyper
  user_id : Option (List Nat)
  item_id : Option (List Nat)
  user_idx : Option (List Nat)
  item_idx : Option (List Nat)
  interactions : Option (List (Nat × Nat))
  user_items_py : Option (List (Nat × List Nat))
  user_items_nb : Option (List (Nat × List Nat))
  x_uf : Option Mat
  x_if : Option Mat
  w_i : Option (List ℚ)
  w_if : Option (List ℚ)
  v_u : Option Mat
  v_i : Option Mat
  v_uf : Option Mat
  v_if : Option Mat
  is_fit : Bool
deriving DecidableEq

/-- `RankFM._reset_state`: every index/interaction/feature/weight field
back to `None` and the fit flag cleared; hyperparameters survive. -/
def reset_state (m : Model) : Model :=
  ⟨m.hyper, none, none, none, none, none, none, none,
   none, none, none, none, none, none, none, none, false⟩

/-- Lexicographic order used by `sort_values(['user_idx', 'item_idx'])`. -/
def pairLe (p q : Nat × Nat) : Prop :=
  p.1 < q.1 ∨ (p.1 = q.1 ∧ p.2 ≤ q.2)

instance : DecidableRel pairLe := fun p q => by unfold pairLe; infer_instance

/-- The observed-items dictionary
`groupby('user_idx')['item_idx'].apply(np.array).to_dict()` over the
interactions sorted by (user_idx, item_idx): one entry per distinct user
in ascending order, carrying that user's item indices in ascending order,
duplicates kept as pandas keeps them. -/
def groupByUser (inter : List (Nat × Nat)) : List (Nat × List Nat) :=
  let s := List.insertionSort pairLe inter
  (uniqSorted (inter.map Prod.fst)).map fun u =>
    (u, s.filterMap fun p => if p.1 = u then some p.2 else none)

/-- The `for user, items in self.user_items_py.items()` loop that fills the
empty numba typed dict entry by entry. -/
def copyDict (l : List (Nat × List Nat)) : List (Nat × List Nat) :=
  l.foldl (fun d kv => d ++ [kv]) []

/-- The interaction rows with both identifiers mapped to index positions
(rows with a failed lookup skipped; on the success path of
`_init_interactions` every row maps). -/
def mapPairs (uids iids : List Nat) (inter : List (Nat × Nat)) : List (Nat × Nat) :=
  inter.filterMap fun p =>
    (lookupIdx uids p.1).bind fun a => (lookupIdx iids p.2).map fun b => (a, b)

/-- `RankFM._init_interactions`: map raw identifiers through the existing
index Series and cast each column to int32. pandas raises on that cast
whenever `.map` produced NaN for an identifier missing from the index,
because `.dropna()` only runs after both casts; so any row with an unknown
user or item id aborts the call (the partially-cast frame the aborted
assignment leaves behind is not modelled beyond keeping the raw rows). On
success the NaN-free frame is kept, the observed-items dictionaries are
rebuilt, and the frame becomes a plain index-pair array. -/
def init_interactions (inter : List (Nat × Nat)) (m : Model) :
    Model × Option String :=
  let m1 := { m with interactions := some inter }
  if (inter.map fun p => lookupIdx (m.user_id.getD []) p.1).all Option.isSome then
    if (inter.map fun p => lookupIdx (m.item_id.getD []) p.2).all Option.isSome then
      let mapped := mapPairs (m.user_id.getD []) (m.item_id.getD []) inter
      let py := groupByUser mapped
      ({ m1 with interactions := some mapped, user_items_py := some py,
                 user_items_nb := some (copyDict py) }, none)
    else (m1, some "Cannot convert non-finite values (NA or inf) to integer")
  else (m1, some "Cannot convert non-finite values (NA or inf) to integer")

/-- The `np.array_equal(sorted(x.index.values), idx)` check of
`_init_features`: every feature row's id mapped to an index (no NaN), and
the sorted mapped indices are exactly 0, ..., n-1. -/
def coversIndex (mapped : List (Option Nat)) (n : Nat) : Bool :=
  mapped.all Option.isSome &&
    decide (List.insertionSort (· ≤ ·) (mapped.filterMap id) = List.range n)

/-- Row `r` of the `sort_index()`-ed feature frame: the feature values of
the input row whose id maps to index `r` (unique under `coversIndex`). -/
def featRow (ids : List Nat) (f : Feats) (r : Nat) : List ℚ :=
  ((f.rows.find? fun row => lookupIdx ids row.1 == some r).map Prod.snd).getD []

/-- The stored feature matrix `np.array(x.sort_index())`: rows ordered by
mapped index position. -/
def featMat (ids : List Nat) (f : Feats) (n : Nat) : Mat :=
  ⟨f.ncols, (List.range n).map (featRow ids f)⟩

/-- `RankFM._init_features`: the user block then the item block, each
either storing the feature matrix row-ordered by mapped index (when the
mapped ids cover the model index exactly) or raising KeyError, the
exception skipping the rest; with no feature table supplied the matrix is
a single all-zero column. -/
def init_features (user_features item_features : Option Feats) (m : Model) :
    Model × Option String :=
  let ustep : Model × Option String :=
    match user_features with
    | none => ({ m with x_uf := some (zerosMat (m.user_id.getD []).length 1) }, none)
    | some f =>
      if coversIndex (f.rows.map fun row => lookupIdx (m.user_id.getD []) row.1)
          (m.user_id.getD []).length then
        ({ m with x_uf := some (featMat (m.user_id.getD []) f (m.user_id.getD []).length) },
         none)
      else
        (m, some "the users in [user_features] do not match the users in [interactions]")
  match ustep with
  | (m1, some e) => (m1, some e)
  | (m1, none) =>
    match item_features with
    | none => ({ m1 with x_if := some (zerosMat (m.item_id.getD []).length 1) }, none)
    | some f =>
      if coversIndex (f.rows.map fun row => lookupIdx (m.item_id.getD []) row.1)
          (m.item_id.getD []).length then
        ({ m1 with x_if := some (featMat (m.item_id.getD []) f (m.item_id.getD []).length) },
         none)
      else
        (m1, some "the items in [item_features] do not match the items in [interactions]")

/-- `RankFM._init_weights`: zero bias vectors sized by the item count and
the item-feature column count; the latent factor matrices take the
`np.random.normal(loc=0, scale=sigma)` draws, supplied here as the
explicit arguments `dv_u`, `dv_i`, `dv_uf`, `dv_if`; the user/item feature
factors are all zeros instead when the corresponding feature table was not
supplied. -/
def init_weights (user_features item_features : Option Feats)
    (dv_u dv_i dv_uf dv_if : Mat) (m : Model) : Model :=
  { m with
    w_i := some (zerosVec (m.item_id.getD []).length),
    w_if := some (zerosVec (m.x_if.getD (zerosMat 0 0)).ncols),
    v_u := some dv_u,
    v_i := some dv_i,
    v_uf := some (match user_features with
      | none => zerosMat (m.x_uf.getD (zerosMat 0 0)).ncols m.hyper.factors.toNat
      | some _ => dv_uf),
    v_if := some (match item_features with
      | none => zerosMat (m.x_if.getD (zerosMat 0 0)).ncols m.hyper.factors.toNat
      | some _ => dv_if) }

/-- `RankFM._init_all`: build the sorted-unique id indexes from the raw
interactions, then `_init_interactions`, `_init_features`,
`_init_weights` in order, an exception aborting the sequence. -/
def init_all (inter : List (Nat × Nat)) (user_features item_features : Option Feats)
    (dv_u dv_i dv_uf dv_if : Mat) (m : Model) : Model × Option String :=
  let m0 := { m with
    user_id := some (uniqSorted (inter.map Prod.fst)),
    item_id := some (uniqSorted (inter.map Prod.snd)),
    user_idx := some (List.range (uniqSorted (inter.map Prod.fst)).length),
    item_idx := some (List.range (uniqSorted (inter.map Prod.snd)).length) }
  match init_interactions inter m0 with
  | (m1, some e) => (m1, some e)
  | (m1, none) =>
    match init_features user_features item_features m1 with
    | (m2, some e) => (m2, some e)
    | (m2, none) =>
      (init_weights user_features item_features dv_u dv_i dv_uf dv_if m2, none)

/-- Everything `fit_partial` passes to the compiled `_fit` routine. -/
structure TrainIn where
  interactions : List (Nat × Nat)
  user_items_nb : List (Nat × List Nat)
  item_idx : List Nat
  regularization : ℚ
  learning_rate : ℚ
  learning_schedule : String
  learning_exponent : ℚ
  epochs : Nat
  x_uf : Mat
  x_if : Mat
  w_i : List ℚ
  w_if : List ℚ
  v_u : Mat
  v_i : Mat
  v_uf : Mat
  v_if : Mat

/-- The tuple of updated weight arrays `_fit` returns. -/
structure TrainOut where
  w_i : List ℚ
  w_if : List ℚ
  v_u : Mat
  v_i : Mat
  v_uf : Mat
  v_if : Mat

/-- The argument tuple `fit_partial` builds for `_fit` from the current
state (every field is `some` on the paths that reach the call). -/
def mkTrainIn (epochs : Nat) (m : Model) : TrainIn :=
  ⟨m.interactions.getD [], m.user_items_nb.getD [], m.item_idx.getD [],
   m.hyper.regularization, m.hyper.learning_rate, m.hyper.learning_schedule,
   m.hyper.learning_exponent, epochs,
   m.x_uf.getD (zerosMat 0 0), m.x_if.getD (zerosMat 0 0),
   m.w_i.getD [], m.w_if.getD [],
   m.v_u.getD (zerosMat 0 0), m.v_i.getD (zerosMat 0 0),
   m.v_uf.getD (zerosMat 0 0), m.v_if.getD (zerosMat 0 0)⟩

/-- The state-initialization phase of `fit_partial`: remap against the
existing indexes when the model is already fit, rebuild everything
otherwise. -/
def initPhase (inter : List (Nat × Nat)) (user_features item_features : Option Feats)
    (dv_u dv_i dv_uf dv_if : Mat) (m : Model) : Model × Option String :=
  if m.is_fit then
    match init_interactions inter m with
    | (m1, some e) => (m1, some e)
    | (m1, none) => init_features user_features item_features m1
  else
    init_all inter user_features item_features dv_u dv_i dv_uf dv_if m

/-- `RankFM.fit_partial`: initialize/remap state, call the trainer on the
current weights, store the six updated weight arrays, set the fit flag,
and return `self`. The compiled `_fit` routine is not among the
repository sources, so it enters as the explicit `trainer` argument. -/
def fit_partial (trainer : TrainIn → TrainOut) (inter : List (Nat × Nat))
    (user_features item_features : Option Feats) (epochs : Nat)
    (dv_u dv_i dv_uf dv_if : Mat) (m : Model) :
    Except String (Option Model) × Model :=
  match initPhase inter user_features item_features dv_u dv_i dv_uf dv_if m with
  | (m1, some e) => (.error e, m1)
  | (m1, none) =>
    let out := trainer (mkTrainIn epochs m1)
    let m2 := { m1 with w_i := some out.w_i, w_if := some out.w_if,
                        v_u := some out.v_u, v_i := some out.v_i,
                        v_uf := some out.v_uf, v_if := some out.v_if,
                        is_fit := true }
    (.ok (some m2), m2)

/-- `RankFM.fit`: `_reset_state` then `self.fit_partial(...)`; the method
body has no return statement, so a successful call returns Python `None`
(modelled as `.ok none`, against `fit_partial`'s `.ok (some self)`). -/
def fit (trainer : TrainIn → TrainOut) (inter : List (Nat × Nat))
    (user_features item_features : Option Feats) (epochs : Nat)
    (dv_u dv_i dv_uf dv_if : Mat) (m : Model) :
    Except String (Option Model) × Model :=
  match fit_partial trainer inter user_features item_features epochs
      dv_u dv_i dv_uf dv_if (reset_state m) with
  | (.error e, m1) => (.error e, m1)
  | (.ok _, m1) => (.ok none, m1)

/-- Dot product of two rational vectors (call sites always pass vectors of
equal length; a longer tail is ignored like numpy would refuse it). -/
def dotv : List ℚ → List ℚ → ℚ
  | [], _ => 0
  | _, [] => 0
  | a :: as, b :: bs => a * b + dotv as bs

/-- Elementwise vector sum (call sites always pass equal lengths; a longer
tail passes through unchanged). -/
def addv : List ℚ → List ℚ → List ℚ
  | [], bs => bs
  | as, [] => as
  | a :: as, b :: bs => (a + b) :: addv as bs

/-- `M^T · x` for a row-major matrix: component `f` is `Σ_p M[p][f] * x[p]`. -/
def matTvec (mat : Mat) (x : List ℚ) : List ℚ :=
  (List.range mat.ncols).map fun f =>
    dotv (mat.rows.map fun row => row.getD f 0) x

/-- Modelled from the spec: the pointwise scoring function of the compiled
`rankfm.numba_methods._predict` core, which is absent from the repository
sources (spec 4.1):
`score = item_bias[i] + dot(item_feature[i], item_feature_bias)
       + dot(latent_user, latent_item)` with
`latent_user = user_factor[u] + user_feature_factor^T · user_feature[u]`
and symmetrically for the item; an unknown user or item index (failed
identifier lookup, here `none`) yields the not-a-number value for the
pair, modelled as `none`, rather than raising. -/
def score_pair (x_uf x_if : Mat) (w_i w_if : List ℚ) (v_u v_i v_uf v_if : Mat) :
    Option Nat × Option Nat → Option ℚ
  | (some u, some i) =>
    let latent_user := addv (v_u.rows.getD u []) (matTvec v_uf (x_uf.rows.getD u []))
    let latent_item := addv (v_i.rows.getD i []) (matTvec v_if (x_if.rows.getD i []))
    some (w_i.getD i 0 + dotv (x_if.rows.getD i []) w_if + dotv latent_user latent_item)
  | _ => none

/-- The scorer applied with a fitted model's stored arrays (the `getD`
defaults are only reachable on unfit states, which never score). -/
def score_pair_of (m : Model) : Option Nat × Option Nat → Option ℚ :=
  score_pair (m.x_uf.getD (zerosMat 0 0)) (m.x_if.getD (zerosMat 0 0))
    (m.w_i.getD []) (m.w_if.getD [])
    (m.v_u.getD (zerosMat 0 0)) (m.v_i.getD (zerosMat 0 0))
    (m.v_uf.getD (zerosMat 0 0)) (m.v_if.getD (zerosMat 0 0))

/-- `RankFM.predict`: assert the model is fit, map the raw pairs through
the index Series (`none` for an unknown id), score every pair via the
compiled `_predict` loop (modelled from the spec as `score_pair_of`, NaN
as `none`), then apply the cold-start policy: "nan" returns the scores as
computed, "drop" removes the NaN entries (`scores[~np.isnan(scores)]`),
anything else raises ValueError — only after the scores were computed.
The method assigns no attribute, so the returned state is `m` itself. -/
def predict (pairs : List (Nat × Nat)) (cold_start : String) (m : Model) :
    Except String (List (Option ℚ)) × Model :=
  if m.is_fit = false then
    (.error "you must fit the model prior to generating predictions", m)
  else
    let mapped := pairs.map fun p =>
      (lookupIdx (m.user_id.getD []) p.1, lookupIdx (m.item_id.getD []) p.2)
    let scores := mapped.map (score_pair_of m)
    if cold_start = "nan" then (.ok scores, m)
    else if cold_start = "drop" then (.ok (scores.filter Option.isSome), m)
    else (.error "param [cold_start] must be set to either nan or drop", m)

/-- First-match association lookup (numba typed dict access). -/
def lookupA (l : List (Nat × List Nat)) (u : Nat) : Option (List Nat) :=
  (l.find? fun kv => kv.1 == u).map Prod.snd

/-- Candidate ranking order of the recommender: descending score, ties
broken by ascending item index (the spec's deterministic tie-break). -/
def recRel (s : Nat → ℚ) (i j : Nat) : Prop :=
  s j < s i ∨ (s i = s j ∧ i ≤ j)

instance (s : Nat → ℚ) : DecidableRel (recRel s) := fun i j => by
  unfold recRel; infer_instance

/-- Modelled from the spec: the per-user core of the compiled
`rankfm.numba_methods._recommend_for_users` routine, absent from the
repository sources (spec 4.4): score every candidate item in the catalog,
exclude the user's observed items when `filter_previous` is set, sort by
descending score breaking ties by ascending item index, take the first
`n_items`. -/
def recommendRow (m : Model) (n_items : Nat) (filter_previous : Bool) (u : Nat) :
    List Nat :=
  let obs := (lookupA (m.user_items_nb.getD []) u).getD []
  let cands := (List.range (m.item_id.getD []).length).filter
    fun i => !(filter_previous && decide (i ∈ obs))
  (List.insertionSort (recRel fun i => (score_pair_of m (some u, some i)).getD 0)
    cands).take n_items

/-- `RankFM.recommend_for_users`: assert the model is fit, map each user
through the index Series, build each known user's recommendation row
(mapped back to raw item ids, as `.apply(lambda c: c.map(index_to_item))`
does) with an unknown user's row all missing markers (`none`), then apply
the cold-start policy: "nan" keeps every row, "drop" removes the missing
rows (`dropna(how='any')`), anything else raises ValueError — only after
the recommendations were computed. No attribute is assigned: the returned
state is `m` itself. -/
def recommend_for_users (users : List Nat) (n_items : Nat) (filter_previous : Bool)
    (cold_start : String) (m : Model) :
    Except String (List (Nat × Option (List Nat))) × Model :=
  if m.is_fit = false then
    (.error "you must fit the model prior to generating recommendations", m)
  else
    let rows := users.map fun uid =>
      (uid, (lookupIdx (m.user_id.getD []) uid).map fun u =>
        (recommendRow m n_items filter_previous u).map
          fun i => (m.item_id.getD []).getD i 0)
    if cold_start = "nan" then (.ok rows, m)
    else if cold_start = "drop" then (.ok (rows.filter fun r => r.2.isSome), m)
    else (.error "param [cold_start] must be set to either nan or drop", m)

/-- Modelled from the spec: the negative sampler of the compiled training
core, absent from the repository sources (spec 4.2): draw uniformly at
random from all item indices, retrying until the drawn index is not in
the user's observed set. The process-wide uniform random source is
abstracted as the stream `draws`; the rejection loop consumes it until
the first unobserved draw (the spec assumes the loop terminates because
catalogs are large, so a stream exhausted with every draw observed yields
`none`). -/
def sample_negative (obs : List Nat) : List Nat → Option Nat
  | [] => none
  | d :: rest => if d ∈ obs then sample_negative obs rest else some d

/-! ### Concrete fixtures shared by witness and counterexample theorems -/

/-- A hyperparameter record with integral default-like values. -/
def hyperA : Hyper := ⟨2, 0, 1, 1, "constant", 1⟩

/-- A freshly constructed (never fit) model. -/
def model0 : Model :=
  ⟨hyperA, none, none, none, none, none, none, none,
   none, none, none, none, none, none, none, none, false⟩

/-- A stub for the compiled trainer that returns its input weights
unchanged (the trainer's behavior is irrelevant to what the fixtures
witness). -/
def trainer0 : TrainIn → TrainOut := fun t =>
  ⟨t.w_i, t.w_if, t.v_u, t.v_i, t.v_uf, t.v_if⟩

/-- Stand-ins for the user/item normal factor draws. -/
def dmatU : Mat := ⟨2, [[1, 2], [3, 4]]⟩

/-- Stand-ins for the user/item normal factor draws. -/
def dmatI : Mat := ⟨2, [[5, 6], [7, 8]]⟩

/-- A concrete fitted model: the state `fit` produces on interactions
[(10,20), (10,21), (11,20)], no side features (its user index is
[10, 11], its item index [20, 21], its stored `w_i` is `[0, 0]`). -/
def modelA : Model :=
  (fit trainer0 [(10, 20), (10, 21), (11, 20)] none none 1
    dmatU dmatI dmatU dmatI model0).2

/-- The six weight fields, bundled for frame reasoning. -/
def weightFields (m : Model) :
    Option (List ℚ) × Option (List ℚ) × Option Mat × Option Mat ×
    Option Mat × Option Mat :=
  (m.w_i, m.w_if, m.v_u, m.v_i, m.v_uf, m.v_if)

/-- The id index mappings together with the weight fields. -/
def stateFrame (m : Model) :
    (Option (List Nat) × Option (List Nat)) ×
    Option (List ℚ) × Option (List ℚ) × Option Mat × Option Mat ×
    Option Mat × Option Mat :=
  ((m.user_id, m.item_id), weightFields m)

/-! ### Theorems -/

/-- `_init_interactions` touches neither the id indexes nor any weight
field, whether it raises or succeeds. -/
theorem init_interactions_stateFrame (inter : List (Nat × Nat)) (m : Model) :
    stateFrame (init_interactions inter m).1 = stateFrame m := by
  unfold init_interactions
  dsimp only
  split_ifs <;> rfl

/-- `_init_features` touches neither the id indexes nor any weight field,
whether it raises or succeeds. -/
theorem init_features_stateFrame (uf itf : Option Feats) (m : Model) :
    stateFrame (init_features uf itf m).1 = stateFrame m := by
  unfold init_features
  cases uf <;> cases itf <;> dsimp only <;> (try split_ifs) <;> rfl

/-- When the user-feature table does not cover the user index,
`_init_features` raises KeyError with the state untouched. -/
theorem init_features_user_mismatch (f : Feats) (itf : Option Feats) (m : Model)
    (hcov : coversIndex (f.rows.map fun row => lookupIdx (m.user_id.getD []) row.1)
        (m.user_id.getD []).length = false) :
    init_features (some f) itf m =
      (m, some "the users in [user_features] do not match the users in [interactions]") := by
  unfold init_features
  dsimp only
  rw [hcov]
  simp

/-- When the item-feature table does not cover the item index,
`_init_features` raises: with KeyError on the item block, or already on
the user block when that one fails too. -/
theorem init_features_item_mismatch (uf : Option Feats) (g : Feats) (m : Model)
    (hcov : coversIndex (g.rows.map fun row => lookupIdx (m.item_id.getD []) row.1)
        (m.item_id.getD []).length = false) :
    ∃ e, (init_features uf (some g) m).2 = some e := by
  unfold init_features
  cases uf with
  | none =>
    dsimp only
    rw [hcov]
    exact ⟨"the items in [item_features] do not match the items in [interactions]",
      by simp⟩
  | some f =>
    dsimp only
    by_cases hu : coversIndex (f.rows.map fun row =>
        lookupIdx (m.user_id.getD []) row.1) (m.user_id.getD []).length = true
    · rw [if_pos hu]
      dsimp only
      rw [hcov]
      exact ⟨"the items in [item_features] do not match the items in [interactions]",
        by simp⟩
    · rw [if_neg hu]
      exact ⟨_, rfl⟩

/-- When the user-feature table does not cover the user index or the
item-feature table does not cover the item index, `_init_features`
raises. -/
theorem init_features_mismatch (uf itf : Option Feats) (m : Model)
    (hcov :
      (∃ f, uf = some f ∧ coversIndex (f.rows.map fun row =>
          lookupIdx (m.user_id.getD []) row.1)
          (m.user_id.getD []).length = false) ∨
      (∃ g, itf = some g ∧ coversIndex (g.rows.map fun row =>
          lookupIdx (m.item_id.getD []) row.1)
          (m.item_id.getD []).length = false)) :
    ∃ e, (init_features uf itf m).2 = some e := by
  rcases hcov with ⟨f, huf, hc⟩ | ⟨g, hitf, hc⟩
  · subst huf
    exact ⟨_, by rw [init_features_user_mismatch f itf m hc]⟩
  · subst hitf
    exact init_features_item_mismatch uf g m hc

/-- On a fitted model the initialization phase of `fit_partial` preserves
the id indexes and every weight field. -/
theorem initPhase_fitted_stateFrame (inter : List (Nat × Nat))
    (uf itf : Option Feats) (d1 d2 d3 d4 : Mat) (m : Model)
    (hfit : m.is_fit = true) :
    stateFrame (initPhase inter uf itf d1 d2 d3 d4 m).1 = stateFrame m := by
  unfold initPhase
  rw [hfit, if_pos rfl]
  have hframe := init_interactions_stateFrame inter m
  rcases hI : init_interactions inter m with ⟨m1, e⟩
  rw [hI] at hframe
  have hframe1 : stateFrame m1 = stateFrame m := hframe
  cases e with
  | none =>
    dsimp only
    exact (init_features_stateFrame uf itf m1).trans hframe1
  | some err => exact hframe1

/-- A failing `_init_all` (from any start state) leaves every weight field
as it found it: the only error sources run before `_init_weights`. -/
theorem init_all_error_weightFields (inter : List (Nat × Nat))
    (uf itf : Option Feats) (d1 d2 d3 d4 : Mat) (m m2 : Model) (e : String)
    (h : init_all inter uf itf d1 d2 d3 d4 m = (m2, some e)) :
    weightFields m2 = weightFields m := by
  unfold init_all at h
  dsimp only at h
  generalize hm0 : ({ m with
    user_id := some (uniqSorted (inter.map Prod.fst)),
    item_id := some (uniqSorted (inter.map Prod.snd)),
    user_idx := some (List.range (uniqSorted (inter.map Prod.fst)).length),
    item_idx := some (List.range (uniqSorted (inter.map Prod.snd)).length) } : Model)
      = m0 at h
  have hw0 : weightFields m0 = weightFields m := by rw [← hm0]; rfl
  rcases hI : init_interactions inter m0 with ⟨m1, e1⟩
  rw [hI] at h
  have hw1 : weightFields m1 = weightFields m0 := by
    have hS := init_interactions_stateFrame inter m0
    rw [hI] at hS
    exact congrArg Prod.snd hS
  cases e1 with
  | some e1v =>
    dsimp only at h
    injection h with hm he
    exact hm ▸ (hw1.trans hw0)
  | none =>
    dsimp only at h
    rcases hF : init_features uf itf m1 with ⟨m3, e3⟩
    rw [hF] at h
    have hw3 : weightFields m3 = weightFields m1 := by
      have hS := init_features_stateFrame uf itf m1
      rw [hF] at hS
      exact congrArg Prod.snd hS
    cases e3 with
    | some e3v =>
      dsimp only at h
      injection h with hm he
      exact hm ▸ (hw3.trans (hw1.trans hw0))
    | none =>
      dsimp only at h
      injection h with hm he
      exact Option.noConfusion he

/-- Every read of a zero vector gives zero. -/
theorem getD_replicate_zero (n i : Nat) :
    (List.replicate n (0 : ℚ)).getD i 0 = 0 := by
  induction n generalizing i with
  | zero => rfl
  | succ k ih => cases i with
    | zero => rfl
    | succ j => exact ih j

/-- In-range reads of a replicated list give the replicated value. -/
theorem getD_replicate_lt {α : Type} (a d : α) {n i : Nat} (h : i < n) :
    (List.replicate n a).getD i d = a := by
  induction n generalizing i with
  | zero => exact absurd h (Nat.not_lt_zero i)
  | succ k ih => cases i with
    | zero => rfl
    | succ j => exact ih (Nat.lt_of_succ_lt_succ h)

/-- A single-entry zero vector contributes nothing to a dot product. -/
theorem dotv_zeroCol (w : List ℚ) : dotv [0] w = 0 := by
  cases w with
  | nil => rfl
  | cons y ys => simp [dotv]

/-- Adding a zero vector of matching length is the identity. -/
theorem addv_replicate_zero (a : List ℚ) :
    addv a (List.replicate a.length 0) = a := by
  induction a with
  | nil => rfl
  | cons x xs ih =>
    show (x + 0) :: addv xs (List.replicate xs.length 0) = x :: xs
    rw [add_zero, ih]

/-- A 1-row zero factor matrix transposed against the zero feature column
contributes a zero vector. -/
theorem matTvec_single_zero (F : Nat) :
    matTvec (zerosMat 1 F) [0] = List.replicate F 0 := by
  unfold matTvec zerosMat
  dsimp only
  have hcell : ∀ f : Nat,
      dotv ((List.replicate 1 (List.replicate F (0 : ℚ))).map
        fun row => row.getD f 0) [0] = 0 := by
    intro f
    simp [getD_replicate_zero, dotv]
  calc (List.range F).map (fun f =>
        dotv ((List.replicate 1 (List.replicate F (0 : ℚ))).map
          fun row => row.getD f 0) [0])
      = (List.range F).map fun _ => (0 : ℚ) := by
        apply List.map_congr_left
        intro f _
        exact hcell f
    _ = List.replicate F 0 := by
        rw [List.map_const']
        simp

/-- Identifiers present in the index list always map to an index. -/
theorem lookupIdx_isSome_of_mem {l : List Nat} {x : Nat} (h : x ∈ l) :
    (lookupIdx l x).isSome = true := by
  induction l with
  | nil => simp at h
  | cons a rest ih =>
    rw [List.mem_cons] at h
    by_cases hax : a = x
    · simp [lookupIdx, hax]
    · have hx : x ∈ rest := h.resolve_left fun hh => hax hh.symm
      obtain ⟨v, hv⟩ := Option.isSome_iff_exists.mp (ih hx)
      simp [lookupIdx, hax, hv]

/-- Membership in the sorted-unique index list is plain membership. -/
theorem mem_uniqSorted {l : List Nat} {x : Nat} :
    x ∈ uniqSorted l ↔ x ∈ l := by
  unfold uniqSorted
  rw [List.mem_insertionSort, List.mem_dedup]

/-- `_init_interactions` on rows that all map: no exception, the mapped
array stored, both observed-set dictionaries rebuilt. -/
theorem init_interactions_success (inter : List (Nat × Nat)) (m : Model)
    (hu : (inter.map fun p => lookupIdx (m.user_id.getD []) p.1).all
      Option.isSome = true)
    (hi : (inter.map fun p => lookupIdx (m.item_id.getD []) p.2).all
      Option.isSome = true) :
    init_interactions inter m =
      ({ m with
         interactions :=
           some (mapPairs (m.user_id.getD []) (m.item_id.getD []) inter),
         user_items_py :=
           some (groupByUser (mapPairs (m.user_id.getD []) (m.item_id.getD []) inter)),
         user_items_nb :=
           some (copyDict (groupByUser
             (mapPairs (m.user_id.getD []) (m.item_id.getD []) inter))) },
       none) := by
  unfold init_interactions
  dsimp only
  rw [if_pos hu, if_pos hi]

/-- `_init_features` with no feature tables: single zero columns, no
exception. -/
theorem init_features_none_none (m : Model) :
    init_features none none m =
      ({ m with x_uf := some (zerosMat (m.user_id.getD []).length 1),
                x_if := some (zerosMat (m.item_id.getD []).length 1) },
       none) := by
  unfold init_features
  rfl

/-- The whole `_init_all` pipeline with no feature tables: it cannot
fail (the index is built from the interactions themselves, so every row
maps), and it produces exactly the zero-column features, zero bias
vectors, zero feature factors and the supplied normal draws. -/
theorem init_all_no_features (inter : List (Nat × Nat)) (d1 d2 d3 d4 : Mat)
    (m : Model) :
    init_all inter none none d1 d2 d3 d4 m =
      ({ m with
         user_id := some (uniqSorted (inter.map Prod.fst)),
         item_id := some (uniqSorted (inter.map Prod.snd)),
         user_idx := some (List.range (uniqSorted (inter.map Prod.fst)).length),
         item_idx := some (List.range (uniqSorted (inter.map Prod.snd)).length),
         interactions := some (mapPairs (uniqSorted (inter.map Prod.fst))
           (uniqSorted (inter.map Prod.snd)) inter),
         user_items_py := some (groupByUser (mapPairs (uniqSorted (inter.map Prod.fst))
           (uniqSorted (inter.map Prod.snd)) inter)),
         user_items_nb := some (copyDict (groupByUser
           (mapPairs (uniqSorted (inter.map Prod.fst))
             (uniqSorted (inter.map Prod.snd)) inter))),
         x_uf := some (zerosMat (uniqSorted (inter.map Prod.fst)).length 1),
         x_if := some (zerosMat (uniqSorted (inter.map Prod.snd)).length 1),
         w_i := some (zerosVec (uniqSorted (inter.map Prod.snd)).length),
         w_if := some (zerosVec 1),
         v_u := some d1,
         v_i := some d2,
         v_uf := some (zerosMat 1 m.hyper.factors.toNat),
         v_if := some (zerosMat 1 m.hyper.factors.toNat) },
       none) := by
  have hu : (inter.map fun p =>
      lookupIdx (uniqSorted (inter.map Prod.fst)) p.1).all Option.isSome = true := by
    rw [List.all_eq_true]
    intro o ho
    obtain ⟨p, hp, rfl⟩ := List.mem_map.mp ho
    exact lookupIdx_isSome_of_mem (mem_uniqSorted.mpr (List.mem_map_of_mem _ hp))
  have hi : (inter.map fun p =>
      lookupIdx (uniqSorted (inter.map Prod.snd)) p.2).all Option.isSome = true := by
    rw [List.all_eq_true]
    intro o ho
    obtain ⟨p, hp, rfl⟩ := List.mem_map.mp ho
    exact lookupIdx_isSome_of_mem (mem_uniqSorted.mpr (List.mem_map_of_mem _ hp))
  unfold init_all
  dsimp only
  rw [init_interactions_success inter
    ({ m with
       user_id := some (uniqSorted (inter.map Prod.fst)),
       item_id := some (uniqSorted (inter.map Prod.snd)),
       user_idx := some (List.range (uniqSorted (inter.map Prod.fst)).length),
       item_idx := some (List.range (uniqSorted (inter.map Prod.snd)).length) })
    hu hi]
  dsimp only
  rw [init_features_none_none]
  dsimp only
  unfold init_weights
  rfl

/-- C7: the state a fresh fit builds when no side features are supplied:
the initialization cannot fail, both feature matrices are a single
all-zero column, the item-bias and item-feature-bias vectors are all
zeros, and the user-feature and item-feature latent factor matrices are
all zeros — only `v_u` and `v_i` take the (mean 0, stddev sigma) normal
draws, passed in as `d1`/`d2` — so the side-feature terms contribute
nothing to any score: on every in-range pair the spec-modelled scorer
returns exactly `dot(v_u[u], v_i[i])`, the zero item bias adding
nothing. -/
theorem fresh_fit_no_features_zero_side_weights
    (inter : List (Nat × Nat)) (d1 d2 d3 d4 : Mat) (m : Model)
    (hd1 : ∀ row ∈ d1.rows, row.length = m.hyper.factors.toNat)
    (hd2 : ∀ row ∈ d2.rows, row.length = m.hyper.factors.toNat) :
    (init_all inter none none d1 d2 d3 d4 (reset_state m)).2 = none ∧
    (init_all inter none none d1 d2 d3 d4 (reset_state m)).1.x_uf =
      some (zerosMat (uniqSorted (inter.map Prod.fst)).length 1) ∧
    (init_all inter none none d1 d2 d3 d4 (reset_state m)).1.x_if =
      some (zerosMat (uniqSorted (inter.map Prod.snd)).length 1) ∧
    (init_all inter none none d1 d2 d3 d4 (reset_state m)).1.w_i =
      some (zerosVec (uniqSorted (inter.map Prod.snd)).length) ∧
    (init_all inter none none d1 d2 d3 d4 (reset_state m)).1.w_if =
      some (zerosVec 1) ∧
    (init_all inter none none d1 d2 d3 d4 (reset_state m)).1.v_u = some d1 ∧
    (init_all inter none none d1 d2 d3 d4 (reset_state m)).1.v_i = some d2 ∧
    (init_all inter none none d1 d2 d3 d4 (reset_state m)).1.v_uf =
      some (zerosMat 1 m.hyper.factors.toNat) ∧
    (init_all inter none none d1 d2 d3 d4 (reset_state m)).1.v_if =
      some (zerosMat 1 m.hyper.factors.toNat) ∧
    (∀ u i, u < (uniqSorted (inter.map Prod.fst)).length →
       i < (uniqSorted (inter.map Prod.snd)).length →
       u < d1.rows.length → i < d2.rows.length →
       score_pair_of (init_all inter none none d1 d2 d3 d4 (reset_state m)).1
         (some u, some i) =
         some (dotv (d1.rows.getD u []) (d2.rows.getD i []))) := by
  have hres := init_all_no_features inter d1 d2 d3 d4 (reset_state m)
  rw [hres]
  refine ⟨rfl, rfl, rfl, rfl, rfl, rfl, rfl, rfl, rfl, ?_⟩
  intro u i hU hI hu1 hi2
  have hxu : (zerosMat (uniqSorted (inter.map Prod.fst)).length 1).rows.getD u
      ([] : List ℚ) = [0] := getD_replicate_lt _ _ hU
  have hxi : (zerosMat (uniqSorted (inter.map Prod.snd)).length 1).rows.getD i
      ([] : List ℚ) = [0] := getD_replicate_lt _ _ hI
  have hrowu : d1.rows.getD u [] ∈ d1.rows := by
    rw [List.getD_eq_getElem d1.rows [] hu1]
    exact List.getElem_mem hu1
  have hrowi : d2.rows.getD i [] ∈ d2.rows := by
    rw [List.getD_eq_getElem d2.rows [] hi2]
    exact List.getElem_mem hi2
  have hlu : addv (d1.rows.getD u [])
      (List.replicate m.hyper.factors.toNat 0) = d1.rows.getD u [] := by
    rw [← hd1 _ hrowu]
    exact addv_replicate_zero _
  have hli : addv (d2.rows.getD i [])
      (List.replicate m.hyper.factors.toNat 0) = d2.rows.getD i [] := by
    rw [← hd2 _ hrowi]
    exact addv_replicate_zero _
  show score_pair (zerosMat (uniqSorted (inter.map Prod.fst)).length 1)
      (zerosMat (uniqSorted (inter.map Prod.snd)).length 1)
      (zerosVec (uniqSorted (inter.map Prod.snd)).length) (zerosVec 1)
      d1 d2 (zerosMat 1 m.hyper.factors.toNat) (zerosMat 1 m.hyper.factors.toNat)
      (some u, some i) =
    some (dotv (d1.rows.getD u []) (d2.rows.getD i []))
  unfold score_pair
  dsimp only
  rw [hxu, hxi, matTvec_single_zero, hlu, hli]
  have hw : (zerosVec (uniqSorted (inter.map Prod.snd)).length).getD i 0 = 0 :=
    getD_replicate_zero _ i
  rw [hw, dotv_zeroCol, zero_add, zero_add]

/-- Witness for C7 on interactions [(10,20), (11,21)] with the concrete
draw matrices (user/item index length 2, factor rank 2). -/
theorem fresh_fit_no_features_zero_side_weights_witness :
    (init_all [(10, 20), (11, 21)] none none dmatU dmatI dmatU dmatI
      (reset_state model0)).2 = none ∧
    (init_all [(10, 20), (11, 21)] none none dmatU dmatI dmatU dmatI
      (reset_state model0)).1.x_uf = some (zerosMat 2 1) ∧
    (init_all [(10, 20), (11, 21)] none none dmatU dmatI dmatU dmatI
      (reset_state model0)).1.x_if = some (zerosMat 2 1) ∧
    (init_all [(10, 20), (11, 21)] none none dmatU dmatI dmatU dmatI
      (reset_state model0)).1.w_i = some (zerosVec 2) ∧
    (init_all [(10, 20), (11, 21)] none none dmatU dmatI dmatU dmatI
      (reset_state model0)).1.w_if = some (zerosVec 1) ∧
    (init_all [(10, 20), (11, 21)] none none dmatU dmatI dmatU dmatI
      (reset_state model0)).1.v_u = some dmatU ∧
    (init_all [(10, 20), (11, 21)] none none dmatU dmatI dmatU dmatI
      (reset_state model0)).1.v_i = some dmatI ∧
    (init_all [(10, 20), (11, 21)] none none dmatU dmatI dmatU dmatI
      (reset_state model0)).1.v_uf = some (zerosMat 1 2) ∧
    (init_all [(10, 20), (11, 21)] none none dmatU dmatI dmatU dmatI
      (reset_state model0)).1.v_if = some (zerosMat 1 2) ∧
    (∀ u i, u < 2 → i < 2 → u < dmatU.rows.length → i < dmatI.rows.length →
       score_pair_of (init_all [(10, 20), (11, 21)] none none dmatU dmatI
           dmatU dmatI (reset_state model0)).1 (some u, some i) =
         some (dotv (dmatU.rows.getD u []) (dmatI.rows.getD i []))) :=
  fresh_fit_no_features_zero_side_weights [(10, 20), (11, 21)]
    dmatU dmatI dmatU dmatI model0 (by decide) (by decide)

/-- Folding entry-appends from the empty dict reproduces the entry list. -/
theorem foldl_append_singleton (l : List (Nat × List Nat)) :
    ∀ acc, l.foldl (fun d kv => d ++ [kv]) acc = acc ++ l := by
  induction l with
  | nil => intro acc; simp
  | cons x xs ih => intro acc; simp [List.foldl_cons, ih]

/-- The numba typed dict receives exactly the python dict entries. -/
theorem copyDict_eq (l : List (Nat × List Nat)) : copyDict l = l := by
  unfold copyDict
  simpa using foldl_append_singleton l []

/-- Looking up a present key in a keyed map-list finds its entry. -/
theorem find_map_key {β : Type} (g : Nat → β) (l : List Nat) (u : Nat)
    (h : u ∈ l) :
    (l.map fun v => (v, g v)).find? (fun kv => kv.1 == u) = some (u, g u) := by
  induction l with
  | nil => simp at h
  | cons a rest ih =>
    rw [List.mem_cons] at h
    by_cases hau : a = u
    · subst hau
      simp [List.find?]
    · have hu : u ∈ rest := h.resolve_left fun hh => hau hh.symm
      have hb : (a == u) = false := beq_eq_false_iff_ne.mpr hau
      simp [List.find?, hb, ih hu]

/-- Looking up an absent key finds nothing. -/
theorem find_map_key_none {β : Type} (g : Nat → β) (l : List Nat) (u : Nat)
    (h : u ∉ l) :
    (l.map fun v => (v, g v)).find? (fun kv => kv.1 == u) = none := by
  induction l with
  | nil => rfl
  | cons a rest ih =>
    rw [List.mem_cons, not_or] at h
    have hb : (a == u) = false := beq_eq_false_iff_ne.mpr fun hh => h.1 hh.symm
    simp [List.find?, hb, ih h.2]

/-- The observed-set dictionary built by the sorted `groupby` holds item
`i` under user `u` exactly when `(u, i)` is an interaction row. -/
theorem groupByUser_mem (mapped : List (Nat × Nat)) (u i : Nat) :
    (u, i) ∈ mapped ↔
      ∃ l, lookupA (groupByUser mapped) u = some l ∧ i ∈ l := by
  unfold groupByUser lookupA
  dsimp only
  by_cases hu : u ∈ uniqSorted (mapped.map Prod.fst)
  · rw [find_map_key (fun v => (List.insertionSort pairLe mapped).filterMap
        fun p => if p.1 = v then some p.2 else none) _ _ hu]
    constructor
    · intro hmem
      refine ⟨_, rfl, ?_⟩
      rw [List.mem_filterMap]
      refine ⟨(u, i), ?_, ?_⟩
      · exact (List.perm_insertionSort pairLe mapped).mem_iff.mpr hmem
      · simp
    · rintro ⟨l, hl, hil⟩
      have hl2 : some ((List.insertionSort pairLe mapped).filterMap
          fun p => if p.1 = u then some p.2 else none) = some l := hl
      injection hl2 with hl2
      rw [← hl2, List.mem_filterMap] at hil
      obtain ⟨p, hp, hpi⟩ := hil
      by_cases hp1 : p.1 = u
      · rw [if_pos hp1] at hpi
        injection hpi with hpi
        obtain ⟨pa, pb⟩ := p
        cases hp1
        cases hpi
        exact (List.perm_insertionSort pairLe mapped).mem_iff.mp hp
      · rw [if_neg hp1] at hpi
        exact Option.noConfusion hpi
  · constructor
    · intro hmem
      exact absurd (mem_uniqSorted.mpr (List.mem_map_of_mem Prod.fst hmem)) hu
    · rintro ⟨l, hl, _⟩
      rw [find_map_key_none _ _ _ hu] at hl
      exact Option.noConfusion hl

/-- C8: after a successful `_init_interactions` — hence after every
successful fit or partial-fit initialization — the per-user observed sets
are consistent with the stored interaction array, in both directions and
in both dictionaries (the python dict and its numba copy, which holds the
same entries): (u, i) is a stored interaction row exactly when i belongs
to the observed set of u. -/
theorem observed_sets_consistent (inter : List (Nat × Nat)) (m m1 : Model)
    (h : init_interactions inter m = (m1, none)) :
    ∃ mapped py,
      m1.interactions = some mapped ∧
      m1.user_items_py = some py ∧
      m1.user_items_nb = some py ∧
      (∀ u i, (u, i) ∈ mapped ↔ ∃ l, lookupA py u = some l ∧ i ∈ l) := by
  unfold init_interactions at h
  dsimp only at h
  by_cases hu : (inter.map fun p =>
      lookupIdx (m.user_id.getD []) p.1).all Option.isSome = true
  case neg =>
    rw [if_neg hu] at h
    injection h with hm he
    exact Option.noConfusion he
  rw [if_pos hu] at h
  by_cases hi : (inter.map fun p =>
      lookupIdx (m.item_id.getD []) p.2).all Option.isSome = true
  case neg =>
    rw [if_neg hi] at h
    injection h with hm he
    exact Option.noConfusion he
  rw [if_pos hi] at h
  injection h with hm he
  refine ⟨mapPairs (m.user_id.getD []) (m.item_id.getD []) inter,
    groupByUser (mapPairs (m.user_id.getD []) (m.item_id.getD []) inter),
    ?_, ?_, ?_, ?_⟩
  · rw [← hm]
  · rw [← hm]
  · rw [← hm]
    show some (copyDict (groupByUser
      (mapPairs (m.user_id.getD []) (m.item_id.getD []) inter))) = _
    rw [copyDict_eq]
  · intro u i
    exact groupByUser_mem _ u i

/-- Witness for C8 on the concrete fitted model remapping two rows. -/
theorem observed_sets_consistent_witness :
    ∃ mapped py,
      (init_interactions [(10, 20), (11, 21)] modelA).1.interactions =
        some mapped ∧
      (init_interactions [(10, 20), (11, 21)] modelA).1.user_items_py =
        some py ∧
      (init_interactions [(10, 20), (11, 21)] modelA).1.user_items_nb =
        some py ∧
      (∀ u i, (u, i) ∈ mapped ↔ ∃ l, lookupA py u = some l ∧ i ∈ l) :=
  observed_sets_consistent [(10, 20), (11, 21)] modelA
    (init_interactions [(10, 20), (11, 21)] modelA).1 rfl

/-- C4: a partial fit on an already-fit model does not reinitialize:
whatever its initialization phase does, the six weight fields and the id
index mappings come out unchanged, and the trainer is invoked on exactly
the stored weight arrays; a fresh `fit`, by contrast, starts with
`_reset_state`, which discards every prior index, feature and weight
field (all back to None, the fit flag cleared). -/
theorem fit_partial_resumes_without_reinit (inter : List (Nat × Nat))
    (uf itf : Option Feats) (epochs : Nat) (d1 d2 d3 d4 : Mat) (m : Model)
    (hfit : m.is_fit = true) :
    stateFrame (initPhase inter uf itf d1 d2 d3 d4 m).1 = stateFrame m ∧
    (mkTrainIn epochs (initPhase inter uf itf d1 d2 d3 d4 m).1).w_i =
      m.w_i.getD [] ∧
    (mkTrainIn epochs (initPhase inter uf itf d1 d2 d3 d4 m).1).w_if =
      m.w_if.getD [] ∧
    (mkTrainIn epochs (initPhase inter uf itf d1 d2 d3 d4 m).1).v_u =
      m.v_u.getD (zerosMat 0 0) ∧
    (mkTrainIn epochs (initPhase inter uf itf d1 d2 d3 d4 m).1).v_i =
      m.v_i.getD (zerosMat 0 0) ∧
    (mkTrainIn epochs (initPhase inter uf itf d1 d2 d3 d4 m).1).v_uf =
      m.v_uf.getD (zerosMat 0 0) ∧
    (mkTrainIn epochs (initPhase inter uf itf d1 d2 d3 d4 m).1).v_if =
      m.v_if.getD (zerosMat 0 0) ∧
    reset_state m = ⟨m.hyper, none, none, none, none, none, none, none,
      none, none, none, none, none, none, none, none, false⟩ := by
  have hS := initPhase_fitted_stateFrame inter uf itf d1 d2 d3 d4 m hfit
  refine ⟨hS, ?_, ?_, ?_, ?_, ?_, ?_, rfl⟩
  · exact congrArg (fun t => t.2.1.getD []) hS
  · exact congrArg (fun t => t.2.2.1.getD []) hS
  · exact congrArg (fun t => t.2.2.2.1.getD (zerosMat 0 0)) hS
  · exact congrArg (fun t => t.2.2.2.2.1.getD (zerosMat 0 0)) hS
  · exact congrArg (fun t => t.2.2.2.2.2.1.getD (zerosMat 0 0)) hS
  · exact congrArg (fun t => t.2.2.2.2.2.2.getD (zerosMat 0 0)) hS

/-- Witness for C4 on the concrete fitted model. -/
theorem fit_partial_resumes_without_reinit_witness :
    stateFrame (initPhase [(10, 20)] none none dmatU dmatI dmatU dmatI modelA).1 =
      stateFrame modelA ∧
    (mkTrainIn 1 (initPhase [(10, 20)] none none dmatU dmatI dmatU dmatI modelA).1).w_i =
      modelA.w_i.getD [] ∧
    (mkTrainIn 1 (initPhase [(10, 20)] none none dmatU dmatI dmatU dmatI modelA).1).w_if =
      modelA.w_if.getD [] ∧
    (mkTrainIn 1 (initPhase [(10, 20)] none none dmatU dmatI dmatU dmatI modelA).1).v_u =
      modelA.v_u.getD (zerosMat 0 0) ∧
    (mkTrainIn 1 (initPhase [(10, 20)] none none dmatU dmatI dmatU dmatI modelA).1).v_i =
      modelA.v_i.getD (zerosMat 0 0) ∧
    (mkTrainIn 1 (initPhase [(10, 20)] none none dmatU dmatI dmatU dmatI modelA).1).v_uf =
      modelA.v_uf.getD (zerosMat 0 0) ∧
    (mkTrainIn 1 (initPhase [(10, 20)] none none dmatU dmatI dmatU dmatI modelA).1).v_if =
      modelA.v_if.getD (zerosMat 0 0) ∧
    reset_state modelA = ⟨modelA.hyper, none, none, none, none, none, none, none,
      none, none, none, none, none, none, none, none, false⟩ :=
  fit_partial_resumes_without_reinit [(10, 20)] none none 1
    dmatU dmatI dmatU dmatI modelA rfl

/-- A `_init_all` whose user- or item-feature table does not cover the
index rebuilt from the interactions raises: either the interaction remap
already raises, or `_init_features` raises before `_init_weights` runs. -/
theorem init_all_features_mismatch (inter : List (Nat × Nat))
    (uf itf : Option Feats) (d1 d2 d3 d4 : Mat) (m : Model)
    (hcov :
      (∃ f, uf = some f ∧ coversIndex (f.rows.map fun row =>
          lookupIdx (uniqSorted (inter.map Prod.fst)) row.1)
          (uniqSorted (inter.map Prod.fst)).length = false) ∨
      (∃ g, itf = some g ∧ coversIndex (g.rows.map fun row =>
          lookupIdx (uniqSorted (inter.map Prod.snd)) row.1)
          (uniqSorted (inter.map Prod.snd)).length = false)) :
    ∃ e m2, init_all inter uf itf d1 d2 d3 d4 m = (m2, some e) := by
  rcases hIA : init_all inter uf itf d1 d2 d3 d4 m with ⟨m2, e2⟩
  cases e2 with
  | some e => exact ⟨e, m2, rfl⟩
  | none =>
    exfalso
    unfold init_all at hIA
    dsimp only at hIA
    generalize hm0 : ({ m with
      user_id := some (uniqSorted (inter.map Prod.fst)),
      item_id := some (uniqSorted (inter.map Prod.snd)),
      user_idx := some (List.range (uniqSorted (inter.map Prod.fst)).length),
      item_idx := some (List.range (uniqSorted (inter.map Prod.snd)).length) } : Model)
        = m0 at hIA
    rcases hI : init_interactions inter m0 with ⟨m1, e1⟩
    rw [hI] at hIA
    cases e1 with
    | some e1v =>
      dsimp only at hIA
      injection hIA with hm he
      exact Option.noConfusion he
    | none =>
      dsimp only at hIA
      rcases hF : init_features uf itf m1 with ⟨m3, e3⟩
      rw [hF] at hIA
      cases e3 with
      | some e3v =>
        dsimp only at hIA
        injection hIA with hm he
        exact Option.noConfusion he
      | none =>
        have hfr := init_interactions_stateFrame inter m0
        rw [hI] at hfr
        have hu1 : m1.user_id = m0.user_id := congrArg (fun t => t.1.1) hfr
        have hi1 : m1.item_id = m0.item_id := congrArg (fun t => t.1.2) hfr
        have hm0u : m0.user_id = some (uniqSorted (inter.map Prod.fst)) := by
          rw [← hm0]
        have hm0i : m0.item_id = some (uniqSorted (inter.map Prod.snd)) := by
          rw [← hm0]
        obtain ⟨e4, he4⟩ := init_features_mismatch uf itf m1 (by
          rw [hu1, hi1, hm0u, hm0i]
          exact hcov)
        rw [hF] at he4
        exact Option.noConfusion (show (none : Option String) = some e4 from he4)

/-- C1 (amended): a fit or partial fit whose user-feature or item-feature
table does not cover exactly the model's known user/item index set fails
with an error before any weight array is mutated by training:
`fit_partial` on a fitted model leaves every weight field and the id
indexes exactly as before the call, while `fit` — whose first action
`_reset_state` clears all model state — fails against the index rebuilt
from the new interactions and leaves the weight fields in their cleared
None state rather than at their prior values; in neither case does a
weight array receive trained values. -/
theorem schema_mismatch_fails_before_training (trainer : TrainIn → TrainOut)
    (inter : List (Nat × Nat)) (uf itf : Option Feats) (epochs : Nat)
    (d1 d2 d3 d4 : Mat) (m : Model) (hfit : m.is_fit = true)
    (hcov :
      (∃ f, uf = some f ∧ coversIndex (f.rows.map fun row =>
          lookupIdx (m.user_id.getD []) row.1)
          (m.user_id.getD []).length = false) ∨
      (∃ g, itf = some g ∧ coversIndex (g.rows.map fun row =>
          lookupIdx (m.item_id.getD []) row.1)
          (m.item_id.getD []).length = false)) :
    (∃ e m2, fit_partial trainer inter uf itf epochs d1 d2 d3 d4 m =
        (.error e, m2) ∧ stateFrame m2 = stateFrame m) ∧
    (∀ inter2 uf2 itf2 e m2,
       fit trainer inter2 uf2 itf2 epochs d1 d2 d3 d4 m = (.error e, m2) →
       m2.w_i = none ∧ m2.w_if = none ∧ m2.v_u = none ∧ m2.v_i = none ∧
       m2.v_uf = none ∧ m2.v_if = none) ∧
    (∀ inter2 uf2 itf2,
       ((∃ f, uf2 = some f ∧ coversIndex (f.rows.map fun row =>
           lookupIdx (uniqSorted (inter2.map Prod.fst)) row.1)
           (uniqSorted (inter2.map Prod.fst)).length = false) ∨
        (∃ g, itf2 = some g ∧ coversIndex (g.rows.map fun row =>
           lookupIdx (uniqSorted (inter2.map Prod.snd)) row.1)
           (uniqSorted (inter2.map Prod.snd)).length = false)) →
       ∃ e m2, fit trainer inter2 uf2 itf2 epochs d1 d2 d3 d4 m =
         (.error e, m2)) := by
  refine ⟨?_, ?_, ?_⟩
  · have hphase : ∃ e m1,
        initPhase inter uf itf d1 d2 d3 d4 m = (m1, some e) ∧
        stateFrame m1 = stateFrame m := by
      unfold initPhase
      rw [hfit, if_pos rfl]
      have hframe := init_interactions_stateFrame inter m
      rcases hI : init_interactions inter m with ⟨m1, e⟩
      rw [hI] at hframe
      have hframe1 : stateFrame m1 = stateFrame m := hframe
      cases e with
      | some err => exact ⟨err, m1, rfl, hframe1⟩
      | none =>
        dsimp only
        have hm1u : m1.user_id = m.user_id := congrArg (fun t => t.1.1) hframe1
        have hm1i : m1.item_id = m.item_id := congrArg (fun t => t.1.2) hframe1
        obtain ⟨e2, he2⟩ := init_features_mismatch uf itf m1
          (by rw [hm1u, hm1i]; exact hcov)
        rcases hF : init_features uf itf m1 with ⟨m3, e3⟩
        rw [hF] at he2
        have he3 : e3 = some e2 := he2
        subst he3
        have hfr3 := init_features_stateFrame uf itf m1
        rw [hF] at hfr3
        exact ⟨e2, m3, rfl,
          (show stateFrame m3 = stateFrame m1 from hfr3).trans hframe1⟩
    obtain ⟨e, m1, hp, hfr⟩ := hphase
    refine ⟨e, m1, ?_, hfr⟩
    unfold fit_partial
    rw [hp]
  · intro inter2 uf2 itf2 e m2 hcall
    unfold fit at hcall
    rcases hF : fit_partial trainer inter2 uf2 itf2 epochs d1 d2 d3 d4
        (reset_state m) with ⟨r, m3⟩
    rw [hF] at hcall
    cases r with
    | ok v => exact absurd hcall (by simp)
    | error e2 =>
      dsimp only at hcall
      injection hcall with he hm
      unfold fit_partial at hF
      rcases hP : initPhase inter2 uf2 itf2 d1 d2 d3 d4 (reset_state m)
        with ⟨m4, e4⟩
      rw [hP] at hF
      cases e4 with
      | none =>
        dsimp only at hF
        injection hF with hFr
        exact Except.noConfusion hFr
      | some e4v =>
        dsimp only at hF
        injection hF with hFr hFm
        have hwx : weightFields m4 = weightFields (reset_state m) := by
          have : init_all inter2 uf2 itf2 d1 d2 d3 d4 (reset_state m) =
              (m4, some e4v) := by
            rw [← hP]; unfold initPhase
            rw [show (reset_state m).is_fit = false from rfl]
            rfl
          exact init_all_error_weightFields inter2 uf2 itf2 d1 d2 d3 d4
            (reset_state m) m4 e4v this
        have hw2 : weightFields m2 = weightFields (reset_state m) :=
          hm ▸ hFm ▸ hwx
        exact ⟨congrArg (fun t => t.1) hw2, congrArg (fun t => t.2.1) hw2,
          congrArg (fun t => t.2.2.1) hw2, congrArg (fun t => t.2.2.2.1) hw2,
          congrArg (fun t => t.2.2.2.2.1) hw2, congrArg (fun t => t.2.2.2.2.2) hw2⟩
  · intro inter2 uf2 itf2 hcov2
    obtain ⟨e, m2, hIA⟩ := init_all_features_mismatch inter2 uf2 itf2
      d1 d2 d3 d4 (reset_state m) hcov2
    have hFP : fit_partial trainer inter2 uf2 itf2 epochs d1 d2 d3 d4
        (reset_state m) = (.error e, m2) := by
      unfold fit_partial initPhase
      rw [if_neg (show ¬((reset_state m).is_fit = true) by simp [reset_state])]
      rw [hIA]
    refine ⟨e, m2, ?_⟩
    unfold fit
    rw [hFP]

/-- Witness for C1 (amended) on the concrete fitted model with a
one-row user-feature table whose id 9 is unknown. -/
theorem schema_mismatch_fails_before_training_witness :
    (∃ e m2, fit_partial trainer0 [(10, 20)] (some ⟨1, [(9, [5])]⟩) none 1
        dmatU dmatI dmatU dmatI modelA = (.error e, m2) ∧
        stateFrame m2 = stateFrame modelA) ∧
    (∀ inter2 uf2 itf2 e m2,
       fit trainer0 inter2 uf2 itf2 1 dmatU dmatI dmatU dmatI modelA =
         (.error e, m2) →
       m2.w_i = none ∧ m2.w_if = none ∧ m2.v_u = none ∧ m2.v_i = none ∧
       m2.v_uf = none ∧ m2.v_if = none) ∧
    (∀ inter2 uf2 itf2,
       ((∃ f, uf2 = some f ∧ coversIndex (f.rows.map fun row =>
           lookupIdx (uniqSorted (inter2.map Prod.fst)) row.1)
           (uniqSorted (inter2.map Prod.fst)).length = false) ∨
        (∃ g, itf2 = some g ∧ coversIndex (g.rows.map fun row =>
           lookupIdx (uniqSorted (inter2.map Prod.snd)) row.1)
           (uniqSorted (inter2.map Prod.snd)).length = false)) →
       ∃ e m2, fit trainer0 inter2 uf2 itf2 1 dmatU dmatI dmatU dmatI modelA =
         (.error e, m2)) :=
  schema_mismatch_fails_before_training trainer0 [(10, 20)]
    (some ⟨1, [(9, [5])]⟩) none 1 dmatU dmatI dmatU dmatI modelA rfl
    (Or.inl ⟨⟨1, [(9, [5])]⟩, rfl, by decide⟩)

/-- C1 counterexample: on the concrete fitted model, a `fit` call whose
user-feature table does not cover the rebuilt user index fails as the
claim says, but the Weight Store does not hold its prior values
afterwards: the stored item-bias vector was `some [0, 0]` before the call
and is `none` (cleared by `_reset_state`) after it. -/
theorem failed_fit_does_not_preserve_weights :
    (fit trainer0 [(10, 20)] (some ⟨1, [(9, [5])]⟩) none 1
        dmatU dmatI dmatU dmatI modelA).1 =
      .error "the users in [user_features] do not match the users in [interactions]" ∧
    modelA.w_i = some (zerosVec 2) ∧
    (fit trainer0 [(10, 20)] (some ⟨1, [(9, [5])]⟩) none 1
        dmatU dmatI dmatU dmatI modelA).2.w_i = none :=
  ⟨rfl, rfl, rfl⟩

/-- C2 (code-bug evidence): on the concrete fitted model (user index
[10, 11]), a partial fit whose interactions hold the unknown user id 99
raises the pandas non-finite-to-integer cast error instead of dropping
the row: `_init_interactions` runs `.astype(np.int32)` on the mapped
columns before its `.dropna()` ever executes. -/
theorem fit_partial_unknown_id_raises :
    ( fit_partial trainer0 [(99, 20)] none none 1 dmatU dmatI dmatU dmatI
        modelA).1 =
      .error "Cannot convert non-finite values (NA or inf) to integer" ∧
    lookupIdx (modelA.user_id.getD []) 99 = none :=
  ⟨rfl, rfl⟩

/-- C6: every invalid hyperparameter passed to the constructor — factor
rank not a positive integer, regularization not a non-negative float,
sigma not a positive float, learning rate not a positive float, schedule
name not "constant" or "invscaling", exponent not a positive float —
makes `rankfm_init` fail immediately with an error, so no hyperparameter
state is created. -/
theorem invalid_hyperparameters_rejected (a b c d e f : PyVal)
    (h : ¬ validHyper a b c d e f) :
    ∃ msg, rankfm_init a b c d e f = .error msg := by
  unfold validHyper at h
  unfold rankfm_init
  by_cases h1 : a.isInt = true ∧ 1 ≤ a.intVal
  · rw [if_neg (not_not_intro h1)]
    by_cases h2 : b.isFloat = true ∧ 0 ≤ b.floatVal
    · rw [if_neg (not_not_intro h2)]
      by_cases h3 : c.isFloat = true ∧ 0 < c.floatVal
      · rw [if_neg (not_not_intro h3)]
        by_cases h4 : d.isFloat = true ∧ 0 < d.floatVal
        · rw [if_neg (not_not_intro h4)]
          by_cases h5 : e.isStr = true ∧
              (e.strVal = "constant" ∨ e.strVal = "invscaling")
          · rw [if_neg (not_not_intro h5)]
            by_cases h6 : f.isFloat = true ∧ 0 < f.floatVal
            · exact absurd ⟨h1, h2, h3, h4, h5, h6⟩ h
            · exact ⟨_, if_pos h6⟩
          · exact ⟨_, if_pos h5⟩
        · exact ⟨_, if_pos h4⟩
      · exact ⟨_, if_pos h3⟩
    · exact ⟨_, if_pos h2⟩
  · exact ⟨_, if_pos h1⟩

/-- Witness for C6 at factors = 0. -/
theorem invalid_hyperparameters_rejected_witness :
    ∃ msg, rankfm_init (.vint 0) (.vfloat 0) (.vfloat 1) (.vfloat 1)
      (.vstr "constant") (.vfloat 1) = .error msg :=
  invalid_hyperparameters_rejected _ _ _ _ _ _ (by decide)

/-- C9: the rejection-sampling negative sampler returns exactly the first
draw of the uniform stream that is not in the user's observed set
(retrying past every observed draw), and in particular never returns an
item of the observed set, on every draw stream. -/
theorem sample_negative_avoids_observed (obs draws : List Nat) :
    sample_negative obs draws = draws.find? (fun d => !decide (d ∈ obs)) ∧
    ∀ i, sample_negative obs draws = some i → i ∉ obs := by
  have key : sample_negative obs draws = draws.find? fun d => !decide (d ∈ obs) := by
    induction draws with
    | nil => rfl
    | cons d rest ih =>
      by_cases hd : d ∈ obs
      · simp [sample_negative, List.find?, hd, ih]
      · simp [sample_negative, List.find?, hd]
  refine ⟨key, fun i hi => ?_⟩
  rw [key] at hi
  simpa using List.find?_some hi

/-- Witness for C9: observed set {1, 2}, draws 1, 2, 2, 3. -/
theorem sample_negative_avoids_observed_witness :
    sample_negative [1, 2] [1, 2, 2, 3] =
      ([1, 2, 2, 3].find? fun d => !decide (d ∈ [1, 2])) ∧
    ∀ i, sample_negative [1, 2] [1, 2, 2, 3] = some i → i ∉ [1, 2] :=
  sample_negative_avoids_observed [1, 2] [1, 2, 2, 3]

/-- C10: on a fitted model, `predict` and `recommend_for_users` called
with a cold-start argument other than "nan" or "drop" raise ValueError
(the check sits after the `is_fit` assertion and after the
score/recommendation computation, which never raises), and the failed
call leaves the model state unchanged. -/
theorem invalid_cold_start_raises (m : Model) (pairs : List (Nat × Nat))
    (users : List Nat) (n_items : Nat) (fp : Bool) (c : String)
    (hfit : m.is_fit = true) (h1 : c ≠ "nan") (h2 : c ≠ "drop") :
    predict pairs c m =
      (.error "param [cold_start] must be set to either nan or drop", m) ∧
    recommend_for_users users n_items fp c m =
      (.error "param [cold_start] must be set to either nan or drop", m) := by
  unfold predict recommend_for_users
  simp [hfit, h1, h2]

/-- Witness for C10 on the concrete fitted model at cold_start = "x". -/
theorem invalid_cold_start_raises_witness :
    predict [(10, 20)] "x" modelA =
      (.error "param [cold_start] must be set to either nan or drop", modelA) ∧
    recommend_for_users [10] 2 true "x" modelA =
      (.error "param [cold_start] must be set to either nan or drop", modelA) :=
  invalid_cold_start_raises modelA [(10, 20)] [10] 2 true "x" rfl
    (by decide) (by decide)

/-- C5: with a fitted model, `predict` under cold_start "drop" returns the
"nan" result with exactly its missing (NaN) entries removed, every
retained entry identical; and `recommend_for_users` under "nan" gives
every user absent from the trained index a missing-marker row, while
"drop" removes exactly the missing rows, leaving the other rows
identical. -/
theorem cold_start_drop_filters_nan (m : Model) (pairs : List (Nat × Nat))
    (users : List Nat) (n_items : Nat) (fp : Bool) (hfit : m.is_fit = true) :
    (∃ scores, predict pairs "nan" m = (.ok scores, m) ∧
       predict pairs "drop" m = (.ok (scores.filter Option.isSome), m)) ∧
    (∃ rows, recommend_for_users users n_items fp "nan" m = (.ok rows, m) ∧
       recommend_for_users users n_items fp "drop" m =
         (.ok (rows.filter fun r => r.2.isSome), m) ∧
       ∀ uid, uid ∈ users → lookupIdx (m.user_id.getD []) uid = none →
         (uid, (none : Option (List Nat))) ∈ rows) := by
  constructor
  · refine ⟨(pairs.map fun p => (lookupIdx (m.user_id.getD []) p.1,
      lookupIdx (m.item_id.getD []) p.2)).map (score_pair_of m), ?_, ?_⟩
    · simp [predict, hfit]
    · simp [predict, hfit]
  · refine ⟨users.map fun uid => (uid, (lookupIdx (m.user_id.getD []) uid).map
      fun u => (recommendRow m n_items fp u).map
        fun i => (m.item_id.getD []).getD i 0), ?_, ?_, ?_⟩
    · simp [recommend_for_users, hfit]
    · simp [recommend_for_users, hfit]
    · intro uid hu hnone
      refine List.mem_map.mpr ⟨uid, hu, ?_⟩
      simp [hnone]

/-- Witness for C5 on the concrete fitted model, scoring one known and
one unknown pair and recommending for one known and one unknown user. -/
theorem cold_start_drop_filters_nan_witness :
    (∃ scores, predict [(10, 20), (99, 20)] "nan" modelA = (.ok scores, modelA) ∧
       predict [(10, 20), (99, 20)] "drop" modelA =
         (.ok (scores.filter Option.isSome), modelA)) ∧
    (∃ rows, recommend_for_users [10, 99] 2 false "nan" modelA = (.ok rows, modelA) ∧
       recommend_for_users [10, 99] 2 false "drop" modelA =
         (.ok (rows.filter fun r => r.2.isSome), modelA) ∧
       ∀ uid, uid ∈ [10, 99] → lookupIdx (modelA.user_id.getD []) uid = none →
         (uid, (none : Option (List Nat))) ∈ rows) :=
  cold_start_drop_filters_nan modelA [(10, 20), (99, 20)] [10, 99] 2 false rfl

/-- C3 (code-bug evidence): a successful fresh `fit` call returns Python
None — the method body has no return statement, despite its docstring
`:return: self` — while the identical call through `fit_partial` returns
the fitted model carrying the learned weight arrays; evaluated at a
concrete valid input. -/
theorem fit_returns_none_not_weights :
    (fit trainer0 [(10, 20)] none none 1 dmatU dmatI dmatU dmatI model0).1 =
      .ok none ∧
    ∃ m, fit_partial trainer0 [(10, 20)] none none 1 dmatU dmatI dmatU dmatI model0 =
      (.ok (some m), m) ∧ m.w_i = some (zerosVec 1) :=
  ⟨rfl, ⟨_, rfl, rfl⟩⟩

end RankFM
